import Mathlib

/-!
# ssh-cli-tool: the profile store and the menu flows of `cli.js`

A shallow embedding of `src/cli.js`.  The process state is the in-memory list
`sshRemotes` together with the content of `ssh-config.json`; every menu
function is a function from that state and the outcomes of its prompts to the
new state and the list of effects it performs, in program order.

External libraries are not part of the repository: the `chalk` styling
functions are parameters (`Chalk`), `JSON.parse` is a parameter of the
start-up, `JSON.stringify` is modelled on values of the data model (lists of
three-field records of strings), a call of `fs.writeFileSync` either returns
or throws (`WriteOutcome`), and a spawned child process is the list of events
it emits.
-/

namespace SshCli

/-! ## Data model -/

/-- One entry of `sshRemotes`: `{ name, ip, user }`. -/
structure Profile where
  name : String
  ip : String
  user : String
deriving DecidableEq, Repr

/-- The constant `defaultSSHRemotes` (cli.js:22-24). -/
def defaultSSHRemotes : List Profile :=
  [{ name := "Template Server 1", ip := "192.168.1.100", user := "template_user" }]

/-- The process state: the global `sshRemotes` and the content of the file at
`sshConfigPath` as `fs.readFileSync` returns it (`none` when the file does not
exist). -/
structure World where
  sshRemotes : List Profile
  file : Option String
deriving DecidableEq, Repr

/-! ## JSON.stringify(value, null, 2) on lists of profiles -/

/-- The double quote character. -/
def dq : Char := Char.ofNat 34

/-- The backslash character. -/
def bs : Char := Char.ofNat 92

/-- Lower-case hexadecimal digit of a number below 16. -/
def hexDigit (n : Nat) : Char :=
  if n < 10 then Char.ofNat (48 + n) else Char.ofNat (87 + n)

/-- The JSON escape of one character inside a string literal, as
`JSON.stringify` writes it. -/
def quoteChar (c : Char) : List Char :=
  if c = dq then [bs, dq]
  else if c = bs then [bs, bs]
  else if c = Char.ofNat 8 then [bs, 'b']
  else if c = Char.ofNat 12 then [bs, 'f']
  else if c = Char.ofNat 10 then [bs, 'n']
  else if c = Char.ofNat 13 then [bs, 'r']
  else if c = Char.ofNat 9 then [bs, 't']
  else if c.toNat < 32 then [bs, 'u', '0', '0', hexDigit (c.toNat / 16), hexDigit (c.toNat % 16)]
  else [c]

/-- A string as a JSON string literal. -/
def quote (s : String) : String :=
  String.mk (dq :: (s.data.map quoteChar).flatten ++ [dq])

/-- One profile as `JSON.stringify` prints it at nesting depth one with an
indentation of two spaces. -/
def stringifyProfile (r : Profile) : String :=
  "\x7b\n    " ++ quote "name" ++ ": " ++ quote r.name ++
  ",\n    " ++ quote "ip" ++ ": " ++ quote r.ip ++
  ",\n    " ++ quote "user" ++ ": " ++ quote r.user ++ "\n  \x7d"

/-- The expression `JSON.stringify(sshRemotes, null, 2)`. -/
def stringify (rs : List Profile) : String :=
  match rs with
  | [] => "[]"
  | _ => "[\n  " ++ ",\n  ".intercalate (rs.map stringifyProfile) ++ "\n]"

/-! ## A reader of JSON texts of the data model

The start-up takes `JSON.parse` as a parameter.  The reader below is one
function that can stand for it; it is used to run the model on concrete
files. -/

/-- Tokens of a JSON text that holds a list of records of strings. -/
inductive Tok where
  | lbrack | rbrack | lbrace | rbrace | colon | comma
  | str (s : String)
deriving DecidableEq, Repr

/-- The scanner state: between tokens, inside a string literal, right after a
backslash, inside a `\uXXXX` escape with `n` digits read and value `v`, and,
after the escape of a high surrogate `hi`, before the backslash, before the
`u` and inside the digits of the escape of its low surrogate. -/
inductive LexState where
  | out
  | inStr (acc : List Char)
  | esc (acc : List Char)
  | uni (acc : List Char) (n : Nat) (v : Nat)
  | lowEsc (acc : List Char) (hi : Nat)
  | lowU (acc : List Char) (hi : Nat)
  | low (acc : List Char) (hi : Nat) (n : Nat) (v : Nat)
deriving Repr

/-- Value of a hexadecimal digit. -/
def hexVal (c : Char) : Option Nat :=
  if '0'.toNat ≤ c.toNat ∧ c.toNat ≤ '9'.toNat then some (c.toNat - 48)
  else if 'a'.toNat ≤ c.toNat ∧ c.toNat ≤ 'f'.toNat then some (c.toNat - 87)
  else if 'A'.toNat ≤ c.toNat ∧ c.toNat ≤ 'F'.toNat then some (c.toNat - 55)
  else none

/-- The character a single-letter escape stands for. -/
def unescape (c : Char) : Option Char :=
  if c = dq then some dq
  else if c = bs then some bs
  else if c = '/' then some '/'
  else if c = 'b' then some (Char.ofNat 8)
  else if c = 'f' then some (Char.ofNat 12)
  else if c = 'n' then some (Char.ofNat 10)
  else if c = 'r' then some (Char.ofNat 13)
  else if c = 't' then some (Char.ofNat 9)
  else none

/-- JSON white space. -/
def isWs (c : Char) : Bool :=
  c = ' ' || c = Char.ofNat 9 || c = Char.ofNat 10 || c = Char.ofNat 13

/-- The scanner.  `none` is a text `JSON.parse` rejects, or one that holds a
value outside the data model: a number, `true`, `false`, `null`, or the escape
of a surrogate that is not part of a pair (a string of this development is a
sequence of Unicode scalar values). -/
def lex : LexState → List Char → Option (List Tok)
  | .out, [] => some []
  | .out, c :: cs =>
    if isWs c then lex .out cs
    else if c = '[' then (lex .out cs).map (Tok.lbrack :: ·)
    else if c = ']' then (lex .out cs).map (Tok.rbrack :: ·)
    else if c = Char.ofNat 123 then (lex .out cs).map (Tok.lbrace :: ·)
    else if c = Char.ofNat 125 then (lex .out cs).map (Tok.rbrace :: ·)
    else if c = ':' then (lex .out cs).map (Tok.colon :: ·)
    else if c = ',' then (lex .out cs).map (Tok.comma :: ·)
    else if c = dq then lex (.inStr []) cs
    else none
  | .inStr _, [] => none
  | .inStr acc, c :: cs =>
    if c = dq then (lex .out cs).map (Tok.str (String.mk acc.reverse) :: ·)
    else if c = bs then lex (.esc acc) cs
    else if c.toNat < 32 then none
    else lex (.inStr (c :: acc)) cs
  | .esc _, [] => none
  | .esc acc, c :: cs =>
    if c = 'u' then lex (.uni acc 0 0) cs
    else match unescape c with
      | some d => lex (.inStr (d :: acc)) cs
      | none => none
  | .uni _ _ _, [] => none
  | .uni acc n v, c :: cs =>
    match hexVal c with
    | none => none
    | some h =>
      let v1 := 16 * v + h
      if n < 3 then lex (.uni acc (n + 1) v1) cs
      else if 0xD800 ≤ v1 ∧ v1 ≤ 0xDBFF then lex (.lowEsc acc v1) cs
      else if 0xDC00 ≤ v1 ∧ v1 ≤ 0xDFFF then none
      else lex (.inStr (Char.ofNat v1 :: acc)) cs
  | .lowEsc _ _, [] => none
  | .lowEsc acc hi, c :: cs => if c = bs then lex (.lowU acc hi) cs else none
  | .lowU _ _, [] => none
  | .lowU acc hi, c :: cs => if c = 'u' then lex (.low acc hi 0 0) cs else none
  | .low _ _ _ _, [] => none
  | .low acc hi n v, c :: cs =>
    match hexVal c with
    | none => none
    | some h =>
      let v1 := 16 * v + h
      if n < 3 then lex (.low acc hi (n + 1) v1) cs
      else if 0xDC00 ≤ v1 ∧ v1 ≤ 0xDFFF then
        lex (.inStr (Char.ofNat (0x10000 + (hi - 0xD800) * 0x400 + (v1 - 0xDC00)) :: acc)) cs
      else none

/-- The parser state over tokens; `ms` are the members of the record being
read, most recent first. -/
inductive PState where
  | start
  | elemOrEnd
  | elem
  | keyOrEnd
  | key (ms : List (String × String))
  | colon (ms : List (String × String)) (k : String)
  | value (ms : List (String × String)) (k : String)
  | memberEnd (ms : List (String × String))
  | elemEnd
  | done
deriving Repr

/-- A parsed record as a profile: the members `name`, `ip` and `user` of the
record, where a later duplicate key overrides an earlier one, as in
`JSON.parse`; other members are not part of a profile, and a record without
one of the three is outside the data model. -/
def toProfile (ms : List (String × String)) : Option Profile :=
  match ms.lookup "name", ms.lookup "ip", ms.lookup "user" with
  | some n, some i, some u => some { name := n, ip := i, user := u }
  | _, _, _ => none

/-- One step of the parser: the state and the profiles read so far (most
recent first), and the next token. -/
def parseStep (st : PState × List Profile) (t : Tok) : Option (PState × List Profile) :=
  match st.1, t with
  | .start, .lbrack => some (.elemOrEnd, st.2)
  | .elemOrEnd, .rbrack => some (.done, st.2)
  | .elemOrEnd, .lbrace => some (.keyOrEnd, st.2)
  | .elem, .lbrace => some (.keyOrEnd, st.2)
  | .keyOrEnd, .str k => some (.colon [] k, st.2)
  | .key ms, .str k => some (.colon ms k, st.2)
  | .colon ms k, .colon => some (.value ms k, st.2)
  | .value ms k, .str v => some (.memberEnd ((k, v) :: ms), st.2)
  | .memberEnd ms, .comma => some (.key ms, st.2)
  | .memberEnd ms, .rbrace => (toProfile ms).map (fun p => (.elemEnd, p :: st.2))
  | .elemEnd, .comma => some (.elem, st.2)
  | .elemEnd, .rbrack => some (.done, st.2)
  | _, _ => none

/-- The parser over a token list. -/
def parseToks : PState × List Profile → List Tok → Option (PState × List Profile)
  | st, [] => some st
  | st, t :: ts =>
    match parseStep st t with
    | some st1 => parseToks st1 ts
    | none => none

/-- A reading of `JSON.parse(text)` on the data model: `none` when the text is
not JSON or its value is not a list of records of strings that hold `name`,
`ip` and `user`. -/
def jsonParse (text : String) : Option (List Profile) :=
  match lex .out text.data with
  | none => none
  | some ts =>
    match parseToks (.start, []) ts with
    | some (.done, rs) => some rs.reverse
    | _ => none

/-! ## Labels -/

/-- The styling functions of `chalk` the program uses. -/
structure Chalk where
  blue : String → String
  green : String → String
  red : String → String
  cyan : String → String
  yellow : String → String
  gray : String → String

/-- Styling when colours are disabled: every function is the identity. -/
def Chalk.plain : Chalk :=
  { blue := id, green := id, red := id, cyan := id, yellow := id, gray := id }

/-- Constant `sshEmoji`. -/
def sshEmoji (ch : Chalk) : String := ch.blue "[*]"
/-- Constant `addEmoji`. -/
def addEmoji (ch : Chalk) : String := ch.green "[+]"
/-- Constant `removeEmoji`. -/
def removeEmoji (ch : Chalk) : String := ch.red "[x]"
/-- Constant `manageEmoji`. -/
def manageEmoji (ch : Chalk) : String := ch.cyan "[@]"
/-- Constant `editEmoji`. -/
def editEmoji (ch : Chalk) : String := ch.yellow "[=]"
/-- Constant `exitEmoji`. -/
def exitEmoji (ch : Chalk) : String := ch.red "[X] Exit"

/-- The template literal of the edit and remove flows (cli.js:163, 171, 230,
238), which renders a profile as `name (IP: ip, User: user)`. -/
def label (remote : Profile) : String :=
  remote.name ++ " (IP: " ++ remote.ip ++ ", User: " ++ remote.user ++ ")"

/-- The template literal of the connect flow (cli.js:332, 341). -/
def connectLabel (ch : Chalk) (remote : Profile) : String :=
  remote.name ++ " " ++ ch.gray ("IP: " ++ remote.ip ++ " | User: " ++ remote.user)

/-- The method `String.prototype.startsWith`. -/
def startsWith (s pre : String) : Bool := pre.data.isPrefixOf s.data

/-! ## Prompts, effects and child processes -/

/-- How the promise of `inquirer.prompt` settles. -/
inductive Outcome (α : Type) where
  | resolved (answers : α)
  | rejected (message : String)
deriving Repr

/-- One question of a prompt. -/
structure Question where
  type : String
  name : String
  message : String
  choices : List String := []
  default : Option String := none
deriving DecidableEq, Repr

/-- The functions of the program a handler can call. -/
inductive Call where
  | mainMenu
  | manageConnectionsMenu
  | addNewSSHConnection
  | editSSHConnection
  | removeSSHConnection
  | selectSSHConnectionToConnect
  | connectToRemote (ip user : String)
  | copySSHKeyToRemote (ip user : String)
deriving DecidableEq, Repr

/-- What a function of the program does, one constructor per kind of
statement; `writeFileSync` is the call, whether it returns or throws. -/
inductive Effect where
  | prompt (questions : List Question)
  | log (message : String)
  | error (message : String)
  | clearScreen
  | writeFileSync (content : String)
  | spawn (command : String) (args : List String)
  | call (f : Call)
  | exit (code : Nat)
deriving DecidableEq, Repr

/-- An event of a spawned child process; the exit code is `none` when the
child was ended by a signal. -/
inductive ChildEvent where
  | error (message : String)
  | close (code : Option Int)
deriving DecidableEq, Repr

/-- The exit code inside a template literal. -/
def showCode (code : Option Int) : String :=
  match code with
  | some n => toString n
  | none => "null"

/-- How a call of `fs.writeFileSync` ends: it returns, or it throws an error
with a message and leaves the file with content `left` (`none`: no file). -/
inductive WriteOutcome where
  | ok
  | throws (message : String) (left : Option String)
deriving DecidableEq, Repr

/-- The statement `fs.writeFileSync(sshConfigPath, JSON.stringify(sshRemotes, null, 2))`
on the state; the list is not touched. -/
def World.save (w : World) (write : WriteOutcome) : World :=
  match write with
  | .ok => { w with file := some (stringify w.sshRemotes) }
  | .throws _ left => { w with file := left }

/-! ## Start-up (cli.js:26-37) -/

/-- The function `initializeSSHConfig`: the file after the call and what the
call does (nothing when the file exists); `none` when `fs.writeFileSync`
throws, which nothing catches. -/
def initializeSSHConfig (ch : Chalk) (write : WriteOutcome) (file : Option String) :
    Option (Option String × List Effect) :=
  match file with
  | none =>
    match write with
    | .ok =>
      some (some (stringify defaultSSHRemotes),
        [.writeFileSync (stringify defaultSSHRemotes),
         .log (ch.green "No SSH config file found. A template config has been created.")])
    | .throws _ _ => none
  | some content => some (some content, [])

/-- Lines 35-37: `initializeSSHConfig()` and then
`sshRemotes = JSON.parse(fs.readFileSync(sshConfigPath))`, with `parse` standing
for `JSON.parse` (`none` when it throws).  The result is the loaded state and
the effects performed; `none` when a statement throws, so that the program
does not start. -/
def startup (ch : Chalk) (parse : String → Option (List Profile)) (write : WriteOutcome)
    (file : Option String) : Option (World × List Effect) :=
  match initializeSSHConfig ch write file with
  | some (some content, effects) =>
    (parse content).map (fun rs => ({ sshRemotes := rs, file := some content }, effects))
  | _ => none

/-! ## Process launcher (cli.js:40-58, 134-153) -/

/-- The `error` handler of `connectToRemote` (cli.js:46-51). -/
def connectOnError (ch : Chalk) (ip user message : String) : List Effect :=
  [.error (ch.red ("Failed to start SSH with tmux: " ++ message)),
   .log (ch.yellow "Falling back to direct SSH connection..."),
   .spawn "ssh" [user ++ "@" ++ ip]]

/-- The `close` handler of `connectToRemote` (cli.js:53-57). -/
def connectOnClose (ch : Chalk) (code : Option Int) : List Effect :=
  [.log (ch.yellow ("SSH process exited with code " ++ showCode code)),
   .clearScreen,
   .call .mainMenu]

/-- The function `connectToRemote(ip, user)`, run against the events the
spawned child emits. -/
def connectToRemote (ch : Chalk) (ip user : String) (events : List ChildEvent) : List Effect :=
  .spawn "tmux" ["new-window", "-n", "ssh-connection", "ssh", user ++ "@" ++ ip] ::
    (events.map (fun e =>
      match e with
      | .error message => connectOnError ch ip user message
      | .close code => connectOnClose ch code)).flatten

/-- The `close` handler of `copySSHKeyToRemote` (cli.js:144-152). -/
def copyOnClose (ch : Chalk) (code : Option Int) : List Effect :=
  [if code = some 0 then
     .log (ch.green "SSH key copied successfully! You can now connect without a password.")
   else
     .error (ch.red ("ssh-copy-id process exited with code " ++ showCode code)),
   .clearScreen,
   .call .mainMenu]

/-- The function `copySSHKeyToRemote(ip, user)`, run against the events the
spawned child emits. -/
def copySSHKeyToRemote (ch : Chalk) (ip user : String) (events : List ChildEvent) : List Effect :=
  .log (ch.blue ("Copying SSH public key to " ++ user ++ "@" ++ ip ++ "...")) ::
  .spawn "ssh-copy-id" [user ++ "@" ++ ip] ::
    (events.map (fun e =>
      match e with
      | .error message => [Effect.error (ch.red ("Failed to copy SSH key: " ++ message))]
      | .close code => copyOnClose ch code)).flatten

/-! ## Menu flows -/

/-- Answers of the prompt of `addNewSSHConnection` and of the second prompt
of `editSSHConnection`. -/
structure Details where
  name : String
  ip : String
  user : String
  action : String
deriving DecidableEq, Repr

/-- The questions of `addNewSSHConnection` (cli.js:70-92). -/
def addQuestions : List Question :=
  [{ type := "input", name := "name", message := "Enter a name for this server:" },
   { type := "input", name := "ip", message := "Enter the server IP address:" },
   { type := "input", name := "user", message := "Enter the username for SSH connection:" },
   { type := "list", name := "action", message := "Save this connection or cancel?",
     choices := ["Save", "Cancel"] }]

/-- The question that offers the key copy (cli.js:105-112). -/
def copyKeyQuestion : Question :=
  { type := "confirm", name := "copyKey",
    message := "Would you like to copy your SSH public key to this server for passwordless login?",
    default := some "true" }

/-- The function `addNewSSHConnection` (cli.js:68-131).  `copyKeyAnswer` is
how the second prompt settles when it is asked; the promise of that prompt is
not returned to the outer chain, so no handler sees its rejection.  `write` is
how the call of `fs.writeFileSync` ends: the push precedes it, and a throw is
caught by the `catch` of the chain. -/
def addNewSSHConnection (ch : Chalk) (w : World) (answers : Outcome Details)
    (copyKeyAnswer : Outcome Bool) (write : WriteOutcome) : World × List Effect :=
  match answers with
  | .resolved a =>
    if a.action = "Save" then
      let pushed : World :=
        { w with sshRemotes := w.sshRemotes ++ [{ name := a.name, ip := a.ip, user := a.user }] }
      match write with
      | .ok =>
        (pushed.save write,
          [.prompt addQuestions,
           .writeFileSync (stringify pushed.sshRemotes),
           .log (ch.green "New SSH connection saved!"),
           .prompt [copyKeyQuestion]] ++
          match copyKeyAnswer with
          | .resolved copyKey =>
            if copyKey then [.call (.copySSHKeyToRemote a.ip a.user)]
            else [.clearScreen, .call .mainMenu]
          | .rejected _ => [])
      | .throws message _ =>
        (pushed.save write,
          [.prompt addQuestions,
           .writeFileSync (stringify pushed.sshRemotes),
           .error (ch.red ("Failed to add new connection: " ++ message)),
           .clearScreen, .call .mainMenu])
    else
      (w, [.prompt addQuestions, .clearScreen, .call .mainMenu])
  | .rejected message =>
    (w, [.prompt addQuestions,
         .error (ch.red ("Failed to add new connection: " ++ message)),
         .clearScreen, .call .mainMenu])

/-- The choices of the edit and remove prompts (cli.js:163, 230). -/
def labelChoices (remotes : List Profile) : List String :=
  remotes.map label ++ ["Cancel"]

/-- The first question of `editSSHConnection` (cli.js:159-164). -/
def editSelectQuestion (ch : Chalk) (remotes : List Profile) : Question :=
  { type := "list", name := "selectedRemote",
    message := ch.yellow "Which server do you want to edit?",
    choices := labelChoices remotes }

/-- The questions of the second prompt of `editSSHConnection` (cli.js:174-199). -/
def editQuestions (selectedRemote : Profile) : List Question :=
  [{ type := "input", name := "name", message := "Enter a new name for this server:",
     default := some selectedRemote.name },
   { type := "input", name := "ip", message := "Enter a new IP address for this server:",
     default := some selectedRemote.ip },
   { type := "input", name := "user", message := "Enter a new username for this server:",
     default := some selectedRemote.user },
   { type := "list", name := "action", message := "Save changes or cancel?",
     choices := ["Save", "Cancel"] }]

/-- The function `editSSHConnection` (cli.js:156-220).  `find` returns the
element object itself, which sits at index `findIdx` of the list, and the three
assignments change that object; the outer chain has no `catch` and the
`if (selectedRemote)` has no `else`.  `write` is how the call of
`fs.writeFileSync` ends: the assignments precede it, and a throw is caught by
the `catch` of the inner chain. -/
def editSSHConnection (ch : Chalk) (w : World) (answers : Outcome String)
    (updatedDetails : Outcome Details) (write : WriteOutcome) : World × List Effect :=
  match answers with
  | .resolved selected =>
    if selected = "Cancel" then
      (w, [.prompt [editSelectQuestion ch w.sshRemotes], .clearScreen, .call .mainMenu])
    else
      match w.sshRemotes.find? (fun remote => decide (label remote = selected)) with
      | some selectedRemote =>
        match updatedDetails with
        | .resolved d =>
          if d.action = "Save" then
            let index := w.sshRemotes.findIdx (fun remote => decide (label remote = selected))
            let updated : Profile :=
              { selectedRemote with name := d.name, ip := d.ip, user := d.user }
            let assigned : World := { w with sshRemotes := w.sshRemotes.set index updated }
            match write with
            | .ok =>
              (assigned.save write,
                [.prompt [editSelectQuestion ch w.sshRemotes],
                 .prompt (editQuestions selectedRemote),
                 .writeFileSync (stringify assigned.sshRemotes),
                 .log (ch.green "SSH connection updated successfully!"),
                 .clearScreen, .call .mainMenu])
            | .throws message _ =>
              (assigned.save write,
                [.prompt [editSelectQuestion ch w.sshRemotes],
                 .prompt (editQuestions selectedRemote),
                 .writeFileSync (stringify assigned.sshRemotes),
                 .error (ch.red ("Failed to update connection: " ++ message)),
                 .clearScreen, .call .mainMenu])
          else
            (w, [.prompt [editSelectQuestion ch w.sshRemotes],
                 .prompt (editQuestions selectedRemote),
                 .clearScreen, .call .mainMenu])
        | .rejected message =>
          (w, [.prompt [editSelectQuestion ch w.sshRemotes],
               .prompt (editQuestions selectedRemote),
               .error (ch.red ("Failed to update connection: " ++ message)),
               .clearScreen, .call .mainMenu])
      | none => (w, [.prompt [editSelectQuestion ch w.sshRemotes]])
  | .rejected _ => (w, [.prompt [editSelectQuestion ch w.sshRemotes]])

/-- The question of `removeSSHConnection` (cli.js:226-231). -/
def removeQuestion (ch : Chalk) (remotes : List Profile) : Question :=
  { type := "list", name := "selectedRemote",
    message := ch.red "Which server do you want to remove?",
    choices := labelChoices remotes }

/-- The function `removeSSHConnection` (cli.js:223-256).  `write` is how the
call of `fs.writeFileSync` ends: the splice precedes it, and a throw is caught
by the `catch` of the chain. -/
def removeSSHConnection (ch : Chalk) (w : World) (answers : Outcome String)
    (write : WriteOutcome) : World × List Effect :=
  match answers with
  | .resolved selected =>
    if selected = "Cancel" then
      (w, [.prompt [removeQuestion ch w.sshRemotes], .clearScreen, .call .mainMenu])
    else
      match w.sshRemotes.findIdx? (fun remote => decide (label remote = selected)) with
      | some indexToRemove =>
        let spliced : World := { w with sshRemotes := w.sshRemotes.eraseIdx indexToRemove }
        match write with
        | .ok =>
          (spliced.save write,
            [.prompt [removeQuestion ch w.sshRemotes],
             .writeFileSync (stringify spliced.sshRemotes),
             .log (ch.green (removeEmoji ch ++ " " ++ selected ++ " has been removed.")),
             .clearScreen, .call .mainMenu])
        | .throws message _ =>
          (spliced.save write,
            [.prompt [removeQuestion ch w.sshRemotes],
             .writeFileSync (stringify spliced.sshRemotes),
             .error (ch.red ("Failed to remove the connection: " ++ message)),
             .clearScreen, .call .mainMenu])
      | none =>
        (w, [.prompt [removeQuestion ch w.sshRemotes],
             .error (ch.red "Server not found."),
             .clearScreen, .call .mainMenu])
  | .rejected message =>
    (w, [.prompt [removeQuestion ch w.sshRemotes],
         .error (ch.red ("Failed to remove the connection: " ++ message)),
         .clearScreen, .call .mainMenu])

/-- The question of `mainMenu` (cli.js:262-272). -/
def mainQuestion (ch : Chalk) : Question :=
  { type := "list", name := "selectedAction", message := "What would you like to do?",
    choices :=
      [sshEmoji ch ++ " Select an SSH connection to connect to",
       addEmoji ch ++ " Add a new SSH connection",
       manageEmoji ch ++ " Manage existing SSH connections",
       exitEmoji ch] }

/-- The function `mainMenu` (cli.js:259-293); its `catch` handler logs and
clears the screen, and nothing else. -/
def mainMenu (ch : Chalk) (answers : Outcome String) : List Effect :=
  match answers with
  | .resolved selectedAction =>
    [.prompt [mainQuestion ch], .clearScreen] ++
      (if startsWith selectedAction (addEmoji ch) then [.call .addNewSSHConnection]
       else if startsWith selectedAction (manageEmoji ch) then [.call .manageConnectionsMenu]
       else if selectedAction = exitEmoji ch then
         [.log (ch.green "Goodbye! ðŸ‘‹"), .exit 0]
       else [.call .selectSSHConnectionToConnect])
  | .rejected message =>
    [.prompt [mainQuestion ch],
     .error (ch.red ("An error occurred: " ++ message)),
     .clearScreen]

/-- The question of `manageConnectionsMenu` (cli.js:299-304). -/
def manageQuestion (ch : Chalk) : Question :=
  { type := "list", name := "manageAction",
    message := "What would you like to do with your connections?",
    choices :=
      [editEmoji ch ++ " Edit an SSH connection",
       removeEmoji ch ++ " Remove an SSH connection",
       "Cancel"] }

/-- The function `manageConnectionsMenu` (cli.js:296-322). -/
def manageConnectionsMenu (ch : Chalk) (answers : Outcome String) : List Effect :=
  match answers with
  | .resolved manageAction =>
    [.prompt [manageQuestion ch], .clearScreen] ++
      (if manageAction = "Cancel" then [.call .mainMenu]
       else if startsWith manageAction (editEmoji ch) then [.call .editSSHConnection]
       else if startsWith manageAction (removeEmoji ch) then [.call .removeSSHConnection]
       else [])
  | .rejected message =>
    [.prompt [manageQuestion ch],
     .error (ch.red ("An error occurred: " ++ message)),
     .clearScreen, .call .mainMenu]

/-- The choices of the connect prompt (cli.js:332). -/
def connectChoices (ch : Chalk) (remotes : List Profile) : List String :=
  remotes.map (connectLabel ch) ++ ["Cancel"]

/-- The question of `selectSSHConnectionToConnect` (cli.js:328-333). -/
def connectQuestion (ch : Chalk) (remotes : List Profile) : Question :=
  { type := "list", name := "selectedRemote",
    message := "Select an SSH connection to connect to:",
    choices := connectChoices ch remotes }

/-- The function `selectSSHConnectionToConnect` (cli.js:325-357). -/
def selectSSHConnectionToConnect (ch : Chalk) (w : World) (answers : Outcome String) :
    List Effect :=
  match answers with
  | .resolved selected =>
    if selected = "Cancel" then
      [.prompt [connectQuestion ch w.sshRemotes], .clearScreen, .call .mainMenu]
    else
      match w.sshRemotes.find? (fun remote => decide (connectLabel ch remote = selected)) with
      | some selectedRemote =>
        [.prompt [connectQuestion ch w.sshRemotes], .clearScreen,
         .log (ch.blue ("Attempting to connect to: " ++ selectedRemote.name ++ " (IP: " ++
           selectedRemote.ip ++ ", User: " ++ selectedRemote.user ++ ")")),
         .call (.connectToRemote selectedRemote.ip selectedRemote.user)]
      | none =>
        [.prompt [connectQuestion ch w.sshRemotes], .clearScreen,
         .error (ch.red "Server not found."),
         .clearScreen, .call .mainMenu]
  | .rejected message =>
    [.prompt [connectQuestion ch w.sshRemotes],
     .error (ch.red ("An error occurred: " ++ message)),
     .clearScreen, .call .mainMenu]

/-- A handler returns control when the last thing it does is to call a
function of the program (a menu, or a launcher whose `close` handler calls
`mainMenu`) or `process.exit`. -/
def returnsControl (effects : List Effect) : Bool :=
  match effects.getLast? with
  | some (.call _) => true
  | some (.exit _) => true
  | _ => false

/-! ## Facts about labels -/

/-- The label of the edit and remove flows ends in a closing parenthesis, so
it is never the choice `Cancel`. -/
theorem label_ne_cancel (r : Profile) : label r ≠ "Cancel" := by
  intro h
  have h0 : (label r).data =
      (r.name.data ++ " (IP: ".data ++ r.ip.data ++ ", User: ".data ++ r.user.data) ++ [')'] := by
    simp [label, String.data_append]
  have h1 : (label r).data.getLast? = some ')' := by
    rw [h0, List.getLast?_append]
    rfl
  rw [h] at h1
  revert h1
  decide

/-- The label of the connect flow holds a space, whatever `chalk.gray` does,
so it is never the choice `Cancel`. -/
theorem connectLabel_ne_cancel (ch : Chalk) (r : Profile) : connectLabel ch r ≠ "Cancel" := by
  intro h
  have h1 : ' ' ∈ (connectLabel ch r).data := by
    simp [connectLabel, String.data_append]
  rw [h] at h1
  revert h1
  decide


/-! ## Start-up -/

/-- The reader `jsonParse` gives the default template back from its
serialization. -/
theorem jsonParse_default : jsonParse (stringify defaultSSHRemotes) = some defaultSSHRemotes := by
  decide

/-- The claim of C8 as stated fails: when the config file does not exist and
`fs.writeFileSync` throws (no write permission in the program directory), the
program stops in `initializeSSHConfig`; no file is created and no list is
loaded. -/
theorem startup_stops_when_write_throws :
    initializeSSHConfig Chalk.plain (.throws "EACCES: permission denied" none) none = none
      ∧ startup Chalk.plain jsonParse (.throws "EACCES: permission denied" none) none = none
      ∧ startup Chalk.plain jsonParse (.throws "EACCES: permission denied" none) none ≠
          some ({ sshRemotes := defaultSSHRemotes, file := some (stringify defaultSSHRemotes) },
                [.writeFileSync (stringify defaultSSHRemotes),
                 .log "No SSH config file found. A template config has been created."]) := by
  refine ⟨rfl, rfl, ?_⟩
  intro h
  cases h

/-- C8, amended: with `parse` standing for `JSON.parse`, which reads the
serialization of the template back as the template: at start-up a missing
config file whose write succeeds is created with the serialization of the
default template and the loaded list is the template, one profile
`Template Server 1`, `192.168.1.100`, `template_user`; when that write throws
the program does not start; an existing file is not written and the loaded
list is the parse of its content. -/
theorem startup_creates_or_loads (ch : Chalk) (parse : String → Option (List Profile))
    (hparse : parse (stringify defaultSSHRemotes) = some defaultSSHRemotes) :
    startup ch parse .ok none =
        some ({ sshRemotes := defaultSSHRemotes, file := some (stringify defaultSSHRemotes) },
              [.writeFileSync (stringify defaultSSHRemotes),
               .log (ch.green "No SSH config file found. A template config has been created.")])
      ∧ defaultSSHRemotes =
        [{ name := "Template Server 1", ip := "192.168.1.100", user := "template_user" }]
      ∧ (∀ (message : String) (left : Option String),
          startup ch parse (.throws message left) none = none)
      ∧ ∀ (content : String) (write : WriteOutcome),
          initializeSSHConfig ch write (some content) = some (some content, []) ∧
          startup ch parse write (some content) =
            (parse content).map (fun rs => ({ sshRemotes := rs, file := some content }, [])) := by
  refine ⟨?_, rfl, fun message left => rfl, fun content write => ⟨rfl, rfl⟩⟩
  simp [startup, initializeSSHConfig, hparse]

/-- A concrete run of the amended C8: the first start with the reader
`jsonParse` creates the file and loads the template. -/
theorem startup_creates_or_loads_witness :
    jsonParse (stringify defaultSSHRemotes) = some defaultSSHRemotes
      ∧ startup Chalk.plain jsonParse .ok none =
        some ({ sshRemotes := defaultSSHRemotes, file := some (stringify defaultSSHRemotes) },
              [.writeFileSync (stringify defaultSSHRemotes),
               .log "No SSH config file found. A template config has been created."]) :=
  ⟨jsonParse_default, (startup_creates_or_loads Chalk.plain jsonParse jsonParse_default).1⟩

/-! ## Process launcher -/

/-- The only command the handlers of `connectToRemote` launch is the direct
`ssh user@ip`, and they launch it exactly when an `error` event occurs. -/
theorem spawn_mem_connect_handlers (ch : Chalk) (ip user : String) (events : List ChildEvent)
    (c : String) (a : List String) :
    Effect.spawn c a ∈
        (events.map (fun e =>
          match e with
          | .error message => connectOnError ch ip user message
          | .close code => connectOnClose ch code)).flatten ↔
      (c = "ssh" ∧ a = [user ++ "@" ++ ip]) ∧ ∃ m, ChildEvent.error m ∈ events := by
  induction events with
  | nil => simp
  | cons e es ih =>
    rw [List.map_cons, List.flatten_cons, List.mem_append, ih]
    cases e with
    | error m =>
      simp only [connectOnError, List.mem_cons, List.mem_singleton, reduceCtorEq, false_or,
        Effect.spawn.injEq, List.not_mem_nil, or_false]
      constructor
      · rintro (h | h)
        · exact ⟨h, m, Or.inl rfl⟩
        · exact ⟨h.1, h.2.imp fun _ hm => Or.inr hm⟩
      · rintro ⟨h, _⟩
        exact Or.inl h
    | close code =>
      simp [connectOnClose]

/-- The handlers of `connectToRemote` call `mainMenu` exactly when a `close`
event occurs. -/
theorem mainMenu_mem_connect_handlers (ch : Chalk) (ip user : String)
    (events : List ChildEvent) :
    Effect.call .mainMenu ∈
        (events.map (fun e =>
          match e with
          | .error message => connectOnError ch ip user message
          | .close code => connectOnClose ch code)).flatten ↔
      ∃ code, ChildEvent.close code ∈ events := by
  induction events with
  | nil => simp
  | cons e es ih =>
    rw [List.map_cons, List.flatten_cons, List.mem_append, ih]
    cases e with
    | error m =>
      simp [connectOnError]
    | close code =>
      simp only [connectOnClose, List.mem_cons, List.mem_singleton, reduceCtorEq, false_or,
        List.not_mem_nil, true_or, ChildEvent.close.injEq, or_false]
      exact ⟨fun _ => ⟨code, Or.inl rfl⟩, fun _ => trivial⟩

/-- C4: `connectToRemote(ip, user)` first launches
`tmux new-window -n ssh-connection ssh user@ip`; the direct command
`ssh user@ip` is launched if and only if the `error` event of the primary
process fired; `mainMenu` is called if and only if the primary process closed,
and when the process closes, with any exit code, the run ends by calling
`mainMenu` and the `close` handler launches nothing: a run with the single
event `close` is the primary launch, the log line, the screen clear and the
call of `mainMenu`. -/
theorem connectToRemote_fallback_iff_error (ch : Chalk) (ip user : String)
    (events : List ChildEvent) :
    (connectToRemote ch ip user events).head? =
        some (.spawn "tmux" ["new-window", "-n", "ssh-connection", "ssh", user ++ "@" ++ ip])
      ∧ (Effect.spawn "ssh" [user ++ "@" ++ ip] ∈ connectToRemote ch ip user events ↔
          ∃ m, ChildEvent.error m ∈ events)
      ∧ (Effect.call .mainMenu ∈ connectToRemote ch ip user events ↔
          ∃ code, ChildEvent.close code ∈ events)
      ∧ ∀ code : Option Int,
          (∀ c a, Effect.spawn c a ∉ connectOnClose ch code) ∧
          (connectOnClose ch code).getLast? = some (.call .mainMenu) ∧
          Effect.spawn "ssh" [user ++ "@" ++ ip] ∉
              connectToRemote ch ip user [ChildEvent.close code] ∧
          (connectToRemote ch ip user (events ++ [ChildEvent.close code])).getLast? =
              some (.call .mainMenu) ∧
          returnsControl (connectToRemote ch ip user (events ++ [ChildEvent.close code])) = true ∧
          connectToRemote ch ip user [ChildEvent.close code] =
            [.spawn "tmux" ["new-window", "-n", "ssh-connection", "ssh", user ++ "@" ++ ip],
             .log (ch.yellow ("SSH process exited with code " ++ showCode code)),
             .clearScreen,
             .call .mainMenu] := by
  have hlast : ∀ code : Option Int,
      (connectToRemote ch ip user (events ++ [ChildEvent.close code])).getLast? =
        some (.call .mainMenu) := by
    intro code
    unfold connectToRemote
    rw [List.map_append, List.flatten_append, ← List.cons_append, List.getLast?_append]
    simp [connectOnClose]
  refine ⟨rfl, ?_, ?_, fun code => ⟨?_, rfl, ?_, hlast code, ?_, rfl⟩⟩
  · unfold connectToRemote
    rw [List.mem_cons, spawn_mem_connect_handlers]
    simp
  · unfold connectToRemote
    rw [List.mem_cons, mainMenu_mem_connect_handlers]
    simp
  · intro c a
    simp [connectOnClose]
  · unfold connectToRemote
    rw [List.mem_cons, spawn_mem_connect_handlers]
    simp
  · unfold returnsControl
    rw [hlast code]

/-! ## The add flow -/

/-- C7: with answer `Save` the add flow appends exactly one profile holding
the entered name, ip and user at the end of the list (also for empty strings
and for a profile already in the list, and however the write ends) and, when
the write returns, offers the key copy; with answer `Cancel` the list and the
stored file are unchanged, nothing is written and no key copy is offered. -/
theorem addNewSSHConnection_appends (ch : Chalk) (w : World) (name ip user : String)
    (copyKeyAnswer : Outcome Bool) (write : WriteOutcome) :
    (let r := addNewSSHConnection ch w
        (.resolved { name := name, ip := ip, user := user, action := "Save" }) copyKeyAnswer
        write;
      r.1.sshRemotes = w.sshRemotes ++ [{ name := name, ip := ip, user := user }]
        ∧ r.1.sshRemotes.length = w.sshRemotes.length + 1
        ∧ r.1.sshRemotes.take w.sshRemotes.length = w.sshRemotes
        ∧ r.1.sshRemotes.getLast? = some { name := name, ip := ip, user := user })
      ∧ Effect.prompt [copyKeyQuestion] ∈
          (addNewSSHConnection ch w
            (.resolved { name := name, ip := ip, user := user, action := "Save" }) copyKeyAnswer
            .ok).2
      ∧
    (let r := addNewSSHConnection ch w
        (.resolved { name := name, ip := ip, user := user, action := "Cancel" }) copyKeyAnswer
        write;
      r.1 = w
        ∧ Effect.prompt [copyKeyQuestion] ∉ r.2
        ∧ (∀ i u, Effect.call (.copySSHKeyToRemote i u) ∉ r.2)
        ∧ (∀ content, Effect.writeFileSync content ∉ r.2)) := by
  refine ⟨?_, ?_, ?_⟩
  · cases write <;> simp [addNewSSHConnection, World.save]
  · simp [addNewSSHConnection]
  · have hne : ("Cancel" : String) ≠ "Save" := by decide
    simp [addNewSSHConnection, hne, addQuestions, copyKeyQuestion]

/-! ## Looking a label up -/

/-- The lookup of a label that some profile of the list renders to: `find`,
`findIndex` and `findIdx` agree on the first profile with that label. -/
theorem first_match (rs : List Profile) (sel : String) (h : ∃ p ∈ rs, label p = sel) :
    ∃ i p,
      rs.findIdx? (fun r => decide (label r = sel)) = some i ∧
      rs.findIdx (fun r => decide (label r = sel)) = i ∧
      rs.find? (fun r => decide (label r = sel)) = some p ∧
      rs[i]? = some p ∧ label p = sel ∧
      ∀ j, j < i → ∀ q, rs[j]? = some q → label q ≠ sel := by
  induction rs with
  | nil => simp at h
  | cons r rs ih =>
    by_cases hr : label r = sel
    · refine ⟨0, r, ?_, ?_, ?_, by simp, hr, ?_⟩
      · simp [List.findIdx?_cons, hr]
      · simp [List.findIdx_cons, hr]
      · simp [hr]
      · intro j hj
        omega
    · have h1 : ∃ p ∈ rs, label p = sel := by
        obtain ⟨p, hp, hl⟩ := h
        rcases List.mem_cons.mp hp with rfl | hp
        · exact absurd hl hr
        · exact ⟨p, hp, hl⟩
      obtain ⟨i, p, h1, h2, h3, h4, h5, h6⟩ := ih h1
      refine ⟨i + 1, p, ?_, ?_, ?_, ?_, h5, ?_⟩
      · simp [List.findIdx?_cons, hr, h1]
      · simp [List.findIdx_cons, hr, h2]
      · simp [hr, h3]
      · simpa using h4
      · intro j hj q hq
        cases j with
        | zero =>
          simp at hq
          subst hq
          exact hr
        | succ j =>
          simp at hq
          exact h6 j (by omega) q hq

/-- The index of a profile found in a list is inside the list. -/
theorem lt_length_of_getElem? (rs : List Profile) (i : Nat) (p : Profile)
    (h : rs[i]? = some p) : i < rs.length := by
  rcases Nat.lt_or_ge i rs.length with hlt | hge
  · exact hlt
  · rw [List.getElem?_eq_none hge] at h
    cases h

/-! ## The remove flow -/

/-- The state after a remove whose selection names a profile: the list with
the first match erased, and the file as the write leaves it. -/
theorem removeSSHConnection_found (ch : Chalk) (w : World) (selected : String)
    (write : WriteOutcome) (i : Nat) (hne : selected ≠ "Cancel")
    (h1 : w.sshRemotes.findIdx? (fun r => decide (label r = selected)) = some i) :
    (removeSSHConnection ch w (.resolved selected) write).1 =
      World.save { w with sshRemotes := w.sshRemotes.eraseIdx i } write := by
  cases write <;> simp [removeSSHConnection, hne, h1]

/-- C5: when the selection is the label of at least one profile, the remove
flow deletes exactly the first profile with that label, however the write
ends: the new list is the old one with that single index erased, its length is
one less, profiles before the index keep their place and profiles after it
move up by one (later duplicates of the label included); selecting `Cancel`
leaves the state unchanged. -/
theorem removeSSHConnection_erases_first (ch : Chalk) (w : World) (selected : String)
    (write : WriteOutcome) (h : ∃ p ∈ w.sshRemotes, label p = selected) :
    (∃ i p,
        w.sshRemotes[i]? = some p ∧ label p = selected ∧
        (∀ j, j < i → ∀ q, w.sshRemotes[j]? = some q → label q ≠ selected) ∧
        (removeSSHConnection ch w (.resolved selected) write).1.sshRemotes =
          w.sshRemotes.eraseIdx i ∧
        (removeSSHConnection ch w (.resolved selected) write).1.sshRemotes.length + 1 =
          w.sshRemotes.length ∧
        (∀ j, j < i →
          (removeSSHConnection ch w (.resolved selected) write).1.sshRemotes[j]? =
            w.sshRemotes[j]?) ∧
        (∀ j, i ≤ j →
          (removeSSHConnection ch w (.resolved selected) write).1.sshRemotes[j]? =
            w.sshRemotes[j + 1]?))
      ∧ (removeSSHConnection ch w (.resolved "Cancel") write).1 = w := by
  constructor
  · obtain ⟨i, p, h1, _, _, h4, h5, h6⟩ := first_match w.sshRemotes selected h
    have hne : selected ≠ "Cancel" := by
      rw [← h5]
      exact label_ne_cancel p
    have hlt : i < w.sshRemotes.length := lt_length_of_getElem? _ _ _ h4
    have hres : (removeSSHConnection ch w (.resolved selected) write).1.sshRemotes =
        w.sshRemotes.eraseIdx i := by
      rw [removeSSHConnection_found ch w selected write i hne h1]
      cases write <;> rfl
    refine ⟨i, p, h4, h5, h6, hres, ?_, ?_, ?_⟩
    · rw [hres, List.length_eraseIdx_of_lt hlt]
      omega
    · intro j hj
      rw [hres, List.getElem?_eraseIdx_of_lt _ _ _ hj]
    · intro j hj
      rw [hres, List.getElem?_eraseIdx_of_ge _ _ _ hj]
  · simp [removeSSHConnection]

/-- A concrete run of C5: two profiles with the same label, the first one is
removed and the duplicate stays. -/
theorem removeSSHConnection_erases_first_witness :
    (∃ p ∈ [Profile.mk "a" "b" "c", Profile.mk "a" "b" "c"], label p = label (Profile.mk "a" "b" "c"))
      ∧ (removeSSHConnection Chalk.plain
          { sshRemotes := [Profile.mk "a" "b" "c", Profile.mk "a" "b" "c"], file := none }
          (.resolved (label (Profile.mk "a" "b" "c"))) .ok).1.sshRemotes.length + 1 = 2 := by
  have h : ∃ p ∈ [Profile.mk "a" "b" "c", Profile.mk "a" "b" "c"],
      label p = label (Profile.mk "a" "b" "c") := ⟨_, List.mem_cons_self _ _, rfl⟩
  obtain ⟨⟨i, p, _, _, _, _, h5, _⟩, _⟩ :=
    removeSSHConnection_erases_first Chalk.plain
      { sshRemotes := [Profile.mk "a" "b" "c", Profile.mk "a" "b" "c"], file := none } _ .ok h
  exact ⟨h, h5⟩

/-! ## The edit flow -/

/-- The state after an edit with answer `Save`: the list with the first match
replaced, and the file as the write leaves it. -/
theorem editSSHConnection_save_list (ch : Chalk) (w : World) (selected : String) (d : Details)
    (write : WriteOutcome) (i : Nat) (p : Profile) (hne : selected ≠ "Cancel")
    (hd : d.action = "Save")
    (h1 : w.sshRemotes.findIdx (fun r => decide (label r = selected)) = i)
    (h2 : w.sshRemotes.find? (fun r => decide (label r = selected)) = some p) :
    (editSSHConnection ch w (.resolved selected) (.resolved d) write).1 =
      World.save
        { w with sshRemotes :=
            w.sshRemotes.set i { name := d.name, ip := d.ip, user := d.user } } write := by
  cases write <;> simp [editSSHConnection, hne, hd, h1, h2]

/-- The list after an edit with answer `Save`. -/
theorem editSSHConnection_save_remotes (ch : Chalk) (w : World) (selected : String)
    (d : Details) (write : WriteOutcome) (i : Nat) (p : Profile) (hne : selected ≠ "Cancel")
    (hd : d.action = "Save")
    (h1 : w.sshRemotes.findIdx (fun r => decide (label r = selected)) = i)
    (h2 : w.sshRemotes.find? (fun r => decide (label r = selected)) = some p) :
    (editSSHConnection ch w (.resolved selected) (.resolved d) write).1.sshRemotes =
      w.sshRemotes.set i { name := d.name, ip := d.ip, user := d.user } := by
  rw [editSSHConnection_save_list ch w selected d write i p hne hd h1 h2]
  cases write <;> rfl

/-- C6: with answer `Save` the edit flow changes the list in place, however
the write ends: the length is kept, the first profile whose label is the
selection holds the entered name, ip and user at its index, and every other
index is unchanged; with `Cancel` at the first or at the second prompt the list
and the stored file are unchanged and nothing is written. -/
theorem editSSHConnection_updates_in_place (ch : Chalk) (w : World) (selected : String)
    (name ip user : String) (write : WriteOutcome)
    (h : ∃ p ∈ w.sshRemotes, label p = selected) :
    (∃ (i : Nat) (p : Profile),
        w.sshRemotes[i]? = some p ∧ label p = selected ∧
        (∀ j : Nat, j < i → ∀ q, w.sshRemotes[j]? = some q → label q ≠ selected) ∧
        (editSSHConnection ch w (.resolved selected)
            (.resolved { name := name, ip := ip, user := user, action := "Save" })
            write).1.sshRemotes.length
          = w.sshRemotes.length ∧
        (editSSHConnection ch w (.resolved selected)
            (.resolved { name := name, ip := ip, user := user, action := "Save" })
            write).1.sshRemotes[i]?
          = some (Profile.mk name ip user) ∧
        (∀ j : Nat, j ≠ i →
          (editSSHConnection ch w (.resolved selected)
            (.resolved { name := name, ip := ip, user := user, action := "Save" })
            write).1.sshRemotes[j]?
          = w.sshRemotes[j]?))
      ∧ (∀ updatedDetails,
          (editSSHConnection ch w (.resolved "Cancel") updatedDetails write).1 = w ∧
          ∀ content, Effect.writeFileSync content ∉
            (editSSHConnection ch w (.resolved "Cancel") updatedDetails write).2)
      ∧ ((editSSHConnection ch w (.resolved selected)
            (.resolved { name := name, ip := ip, user := user, action := "Cancel" }) write).1 = w ∧
          ∀ content, Effect.writeFileSync content ∉
            (editSSHConnection ch w (.resolved selected)
              (.resolved { name := name, ip := ip, user := user, action := "Cancel" })
              write).2) := by
  obtain ⟨i, p, _, h2, h3, h4, h5, h6⟩ := first_match w.sshRemotes selected h
  have hne : selected ≠ "Cancel" := by
    rw [← h5]
    exact label_ne_cancel p
  have hlt : i < w.sshRemotes.length := lt_length_of_getElem? _ _ _ h4
  have hcs : ("Cancel" : String) ≠ "Save" := by decide
  refine ⟨⟨i, p, h4, h5, h6, ?_, ?_, ?_⟩, ?_, ?_⟩
  · rw [editSSHConnection_save_remotes ch w selected _ write i p hne rfl h2 h3]
    simp
  · rw [editSSHConnection_save_remotes ch w selected _ write i p hne rfl h2 h3]
    simp [List.getElem?_set, hlt]
  · intro j hj
    rw [editSSHConnection_save_remotes ch w selected _ write i p hne rfl h2 h3]
    simp [List.getElem?_set_ne (Ne.symm hj)]
  · intro updatedDetails
    simp [editSSHConnection]
  · simp [editSSHConnection, hne, h3, hcs, editQuestions]

/-- A concrete run of C6: the second of three profiles is selected. -/
theorem editSSHConnection_updates_in_place_witness :
    (∃ p ∈ [Profile.mk "a" "1" "u", Profile.mk "b" "2" "v", Profile.mk "c" "3" "w"],
        label p = label (Profile.mk "b" "2" "v"))
      ∧ (editSSHConnection Chalk.plain
          { sshRemotes := [Profile.mk "a" "1" "u", Profile.mk "b" "2" "v", Profile.mk "c" "3" "w"],
            file := none }
          (.resolved (label (Profile.mk "b" "2" "v")))
          (.resolved { name := "x", ip := "y", user := "z", action := "Cancel" }) .ok).1 =
        { sshRemotes := [Profile.mk "a" "1" "u", Profile.mk "b" "2" "v", Profile.mk "c" "3" "w"],
          file := none } := by
  have h : ∃ p ∈ [Profile.mk "a" "1" "u", Profile.mk "b" "2" "v", Profile.mk "c" "3" "w"],
      label p = label (Profile.mk "b" "2" "v") :=
    ⟨_, List.mem_cons_of_mem _ (List.mem_cons_self _ _), rfl⟩
  exact ⟨h, (editSSHConnection_updates_in_place Chalk.plain
    { sshRemotes := [Profile.mk "a" "1" "u", Profile.mk "b" "2" "v", Profile.mk "c" "3" "w"],
      file := none } _ "x" "y" "z" .ok h).2.2.1⟩

/-! ## The store is rewritten after every mutation -/

/-- The claim of C1 as stated fails: when `fs.writeFileSync` throws in the add
flow (answer `Save`), the profile is already pushed, the `catch` of the chain
returns to the main menu, and the stored file, left as it was, is not the
serialization of the list. -/
theorem stored_ne_stringify_when_write_throws :
    (addNewSSHConnection Chalk.plain
        { sshRemotes := defaultSSHRemotes, file := some (stringify defaultSSHRemotes) }
        (.resolved { name := "a", ip := "b", user := "c", action := "Save" }) (.resolved false)
        (.throws "EACCES: permission denied" (some (stringify defaultSSHRemotes)))).1 =
      { sshRemotes := defaultSSHRemotes ++ [{ name := "a", ip := "b", user := "c" }],
        file := some (stringify defaultSSHRemotes) }
      ∧ some (stringify defaultSSHRemotes) ≠
          some (stringify (defaultSSHRemotes ++ [{ name := "a", ip := "b", user := "c" }]))
      ∧ (addNewSSHConnection Chalk.plain
        { sshRemotes := defaultSSHRemotes, file := some (stringify defaultSSHRemotes) }
        (.resolved { name := "a", ip := "b", user := "c", action := "Save" }) (.resolved false)
        (.throws "EACCES: permission denied" (some (stringify defaultSSHRemotes)))).2.getLast? =
          some (.call .mainMenu)
      ∧ (addNewSSHConnection Chalk.plain
        { sshRemotes := defaultSSHRemotes, file := some (stringify defaultSSHRemotes) }
        (.resolved { name := "a", ip := "b", user := "c", action := "Save" }) (.resolved false)
        (.throws "EACCES: permission denied" (some (stringify defaultSSHRemotes)))).1.file ≠
          some (stringify (addNewSSHConnection Chalk.plain
            { sshRemotes := defaultSSHRemotes, file := some (stringify defaultSSHRemotes) }
            (.resolved { name := "a", ip := "b", user := "c", action := "Save" })
            (.resolved false)
            (.throws "EACCES: permission denied"
              (some (stringify defaultSSHRemotes)))).1.sshRemotes) := by
  refine ⟨rfl, by decide, rfl, by decide⟩

/-- C1, amended: after each of the three mutating operations (add with answer
`Save`, edit with answer `Save` on a selection that names a profile, remove on
a selection that names a profile) in which `fs.writeFileSync` returns, the
stored file content is `JSON.stringify` of the whole in-memory list, and that
content is what was written; for every starting state and all answers.  When
the write throws, the file is what the failed write left. -/
theorem stored_eq_stringify_after_mutation (ch : Chalk) (w : World) :
    (∀ (name ip user : String) (copyKeyAnswer : Outcome Bool),
        (addNewSSHConnection ch w
            (.resolved { name := name, ip := ip, user := user, action := "Save" })
            copyKeyAnswer .ok).1.file =
          some (stringify (addNewSSHConnection ch w
            (.resolved { name := name, ip := ip, user := user, action := "Save" })
            copyKeyAnswer .ok).1.sshRemotes) ∧
        Effect.writeFileSync (stringify (addNewSSHConnection ch w
            (.resolved { name := name, ip := ip, user := user, action := "Save" })
            copyKeyAnswer .ok).1.sshRemotes) ∈
          (addNewSSHConnection ch w
            (.resolved { name := name, ip := ip, user := user, action := "Save" })
            copyKeyAnswer .ok).2 ∧
        ∀ message left,
          (addNewSSHConnection ch w
            (.resolved { name := name, ip := ip, user := user, action := "Save" })
            copyKeyAnswer (.throws message left)).1.file = left)
      ∧ (∀ (selected : String) (d : Details),
          (∃ p ∈ w.sshRemotes, label p = selected) → d.action = "Save" →
          (editSSHConnection ch w (.resolved selected) (.resolved d) .ok).1.file =
            some (stringify
              (editSSHConnection ch w (.resolved selected) (.resolved d) .ok).1.sshRemotes) ∧
          Effect.writeFileSync (stringify
              (editSSHConnection ch w (.resolved selected) (.resolved d) .ok).1.sshRemotes) ∈
            (editSSHConnection ch w (.resolved selected) (.resolved d) .ok).2 ∧
          ∀ message left,
            (editSSHConnection ch w (.resolved selected) (.resolved d)
              (.throws message left)).1.file = left)
      ∧ (∀ selected : String,
          (∃ p ∈ w.sshRemotes, label p = selected) →
          (removeSSHConnection ch w (.resolved selected) .ok).1.file =
            some (stringify (removeSSHConnection ch w (.resolved selected) .ok).1.sshRemotes) ∧
          Effect.writeFileSync (stringify
              (removeSSHConnection ch w (.resolved selected) .ok).1.sshRemotes) ∈
            (removeSSHConnection ch w (.resolved selected) .ok).2 ∧
          ∀ message left,
            (removeSSHConnection ch w (.resolved selected) (.throws message left)).1.file =
              left) := by
  refine ⟨?_, ?_, ?_⟩
  · intro name ip user copyKeyAnswer
    simp [addNewSSHConnection, World.save]
  · intro selected d h hd
    obtain ⟨i, p, _, h2, h3, _, h5, _⟩ := first_match w.sshRemotes selected h
    have hne : selected ≠ "Cancel" := by
      rw [← h5]
      exact label_ne_cancel p
    simp [editSSHConnection, hne, hd, h2, h3, World.save]
  · intro selected h
    obtain ⟨i, p, h1, _, _, _, h5, _⟩ := first_match w.sshRemotes selected h
    have hne : selected ≠ "Cancel" := by
      rw [← h5]
      exact label_ne_cancel p
    simp [removeSSHConnection, hne, h1, World.save]

/-- A concrete run of the amended C1: removing the first of two profiles from
a state whose file is stale leaves the file holding the serialization of the
remaining list. -/
theorem stored_eq_stringify_after_mutation_witness :
    (∃ p ∈ [Profile.mk "a" "1" "u", Profile.mk "b" "2" "v"], label p = "a (IP: 1, User: u)")
      ∧ (removeSSHConnection Chalk.plain
          { sshRemotes := [Profile.mk "a" "1" "u", Profile.mk "b" "2" "v"], file := some "[]" }
          (.resolved "a (IP: 1, User: u)") .ok).1.file =
        some (stringify (removeSSHConnection Chalk.plain
          { sshRemotes := [Profile.mk "a" "1" "u", Profile.mk "b" "2" "v"], file := some "[]" }
          (.resolved "a (IP: 1, User: u)") .ok).1.sshRemotes)
      ∧ (removeSSHConnection Chalk.plain
          { sshRemotes := [Profile.mk "a" "1" "u", Profile.mk "b" "2" "v"], file := some "[]" }
          (.resolved "a (IP: 1, User: u)") .ok).1.sshRemotes = [Profile.mk "b" "2" "v"] := by
  have h : ∃ p ∈ [Profile.mk "a" "1" "u", Profile.mk "b" "2" "v"],
      label p = "a (IP: 1, User: u)" :=
    ⟨_, List.mem_cons_self _ _, by decide⟩
  refine ⟨h, ((stored_eq_stringify_after_mutation Chalk.plain
    { sshRemotes := [Profile.mk "a" "1" "u", Profile.mk "b" "2" "v"], file := some "[]" }).2.2
      _ h).1, ?_⟩
  decide

/-! ## An offered choice is always found -/

/-- Looking up, with the rendering `f`, a string that `f` rendered from the
list succeeds, and the profile found renders to that string. -/
theorem find_rendered (f : Profile → String) (rs : List Profile) (c : String)
    (h : c ∈ rs.map f) :
    ∃ p, rs.find? (fun r => decide (f r = c)) = some p ∧ f p = c := by
  induction rs with
  | nil => simp at h
  | cons r rs ih =>
    by_cases hr : f r = c
    · exact ⟨r, by simp [hr], hr⟩
    · have h1 : c ∈ rs.map f := by
        rcases List.mem_cons.mp h with h | h
        · exact absurd h.symm hr
        · exact h
      obtain ⟨p, hp, hc⟩ := ih h1
      exact ⟨p, by simp [hr, hp], hc⟩

/-- C9: every choice offered by the connect, edit and remove prompts other
than `Cancel` is found again by the lookup over the same rendering, the profile
found renders to the chosen string, and the flow then logs no error (the
`Server not found` branch is not taken; when the write of the remove flow
throws, the only error logged is that of the failed write) and returns
control; and no label of either rendering is the literal `Cancel`. -/
theorem offered_choice_is_found (ch : Chalk) (w : World) :
    (∀ c ∈ labelChoices w.sshRemotes, c ≠ "Cancel" →
        (∃ p, w.sshRemotes.find? (fun r => decide (label r = c)) = some p ∧ label p = c) ∧
        (∃ i p, w.sshRemotes.findIdx? (fun r => decide (label r = c)) = some i ∧
          w.sshRemotes[i]? = some p ∧ label p = c) ∧
        (∀ m, Effect.error m ∉ (removeSSHConnection ch w (.resolved c) .ok).2) ∧
        (∀ m message left,
          Effect.error m ∈ (removeSSHConnection ch w (.resolved c) (.throws message left)).2 →
            m = ch.red ("Failed to remove the connection: " ++ message)) ∧
        (∀ d write, returnsControl (editSSHConnection ch w (.resolved c) d write).2 = true))
      ∧ (∀ c ∈ connectChoices ch w.sshRemotes, c ≠ "Cancel" →
        (∃ p, w.sshRemotes.find? (fun r => decide (connectLabel ch r = c)) = some p ∧
          connectLabel ch p = c) ∧
        (∀ m, Effect.error m ∉ (selectSSHConnectionToConnect ch w (.resolved c))))
      ∧ (∀ p : Profile, label p ≠ "Cancel" ∧ connectLabel ch p ≠ "Cancel") := by
  refine ⟨?_, ?_, fun p => ⟨label_ne_cancel p, connectLabel_ne_cancel ch p⟩⟩
  · intro c hc hne
    have hmem : c ∈ w.sshRemotes.map label := by
      rcases List.mem_append.mp hc with h | h
      · exact h
      · exact absurd (List.mem_singleton.mp h) hne
    have hex : ∃ p ∈ w.sshRemotes, label p = c := by
      obtain ⟨p, hp, hl⟩ := List.mem_map.mp hmem
      exact ⟨p, hp, hl⟩
    obtain ⟨i, p, h1, _, h3, h4, h5, _⟩ := first_match w.sshRemotes c hex
    refine ⟨⟨p, h3, h5⟩, ⟨i, p, h1, h4, h5⟩, ?_, ?_, ?_⟩
    · intro m
      simp [removeSSHConnection, hne, h1]
    · intro m message left
      simp [removeSSHConnection, hne, h1]
    · intro d write
      cases d with
      | resolved d =>
        by_cases hd : d.action = "Save"
        · cases write <;> simp [editSSHConnection, hne, h3, hd, returnsControl]
        · simp [editSSHConnection, hne, h3, hd, returnsControl]
      | rejected message =>
        simp [editSSHConnection, hne, h3, returnsControl]
  · intro c hc hne
    have hmem : c ∈ w.sshRemotes.map (connectLabel ch) := by
      rcases List.mem_append.mp hc with h | h
      · exact h
      · exact absurd (List.mem_singleton.mp h) hne
    obtain ⟨p, hp, hl⟩ := find_rendered (connectLabel ch) w.sshRemotes c hmem
    refine ⟨⟨p, hp, hl⟩, ?_⟩
    intro m
    simp [selectSSHConnectionToConnect, hne, hp]

/-- A concrete run of C9: the only profile choice offered for the template
list is found by the lookup. -/
theorem offered_choice_is_found_witness :
    label (Profile.mk "Template Server 1" "192.168.1.100" "template_user") ∈
        labelChoices defaultSSHRemotes
      ∧ label (Profile.mk "Template Server 1" "192.168.1.100" "template_user") ≠ "Cancel"
      ∧ ∃ p, defaultSSHRemotes.find? (fun r => decide (label r =
            label (Profile.mk "Template Server 1" "192.168.1.100" "template_user"))) = some p ∧
          label p = label (Profile.mk "Template Server 1" "192.168.1.100" "template_user") := by
  have hmem : label (Profile.mk "Template Server 1" "192.168.1.100" "template_user") ∈
      labelChoices defaultSSHRemotes := List.mem_cons_self _ _
  have hne : label (Profile.mk "Template Server 1" "192.168.1.100" "template_user") ≠ "Cancel" := by
    decide
  exact ⟨hmem, hne,
    ((offered_choice_is_found Chalk.plain { sshRemotes := defaultSSHRemotes, file := none }).1
      _ hmem hne).1⟩

/-! ## The label as a key -/

/-- Two splittings of one list at a separator that occurs in neither left
part are the same splitting. -/
theorem split_at_first {α : Type} (c : α) (a a1 b b1 : List α)
    (h : a ++ c :: b = a1 ++ c :: b1) (ha : c ∉ a) (ha1 : c ∉ a1) : a = a1 ∧ b = b1 := by
  induction a generalizing a1 with
  | nil =>
    cases a1 with
    | nil => simpa using h
    | cons x xs =>
      simp at h
      simp [h.1] at ha1
  | cons y ys ih =>
    cases a1 with
    | nil =>
      simp at h
      simp [h.1] at ha
    | cons x xs =>
      simp at h
      simp at ha ha1
      obtain ⟨h1, h2⟩ := ih xs h.2 ha.2 ha1.2
      exact ⟨by rw [h.1, h1], h2⟩

/-- The claim of C10 as stated fails: two profiles with different names and
different addresses render to the same label. -/
theorem label_not_injective :
    label { name := "a (IP: b", ip := "c", user := "d" } =
        label { name := "a", ip := "b (IP: c", user := "d" }
      ∧ ("a (IP: b" : String) ≠ "a" ∧ ("c" : String) ≠ "b (IP: c"
      ∧ ¬ (∀ p q : Profile, label p = label q →
            p.name = q.name ∧ p.ip = q.ip ∧ p.user = q.user) := by
  refine ⟨by decide, by decide, by decide, ?_⟩
  intro h
  have h1 := h { name := "a (IP: b", ip := "c", user := "d" }
    { name := "a", ip := "b (IP: c", user := "d" } (by decide)
  exact absurd h1.1 (by decide)

/-- C10, amended: on profiles whose name holds no opening parenthesis and
whose ip holds no comma the label rendering is injective: equal labels imply
equal name, equal ip and equal user. -/
theorem label_injective_of_clean (p q : Profile)
    (hp : '(' ∉ p.name.data) (hq : '(' ∉ q.name.data)
    (hpi : ',' ∉ p.ip.data) (hqi : ',' ∉ q.ip.data)
    (h : label p = label q) :
    p.name = q.name ∧ p.ip = q.ip ∧ p.user = q.user := by
  have hd := congrArg String.data h
  have e : ∀ r : Profile, (label r).data =
      (r.name.data ++ [' ']) ++ '(' :: (("IP: ".data ++ r.ip.data) ++
        ',' :: (" User: ".data ++ (r.user.data ++ [')']))) := by
    intro r
    simp [label, String.data_append]
  rw [e p, e q] at hd
  have hsp : ∀ r : Profile, '(' ∉ r.name.data → '(' ∉ r.name.data ++ [' '] := by
    intro r hr
    simp [hr]
  obtain ⟨h1, h2⟩ := split_at_first '(' _ _ _ _ hd (hsp p hp) (hsp q hq)
  have hip : ∀ r : Profile, ',' ∉ r.ip.data → ',' ∉ "IP: ".data ++ r.ip.data := by
    intro r hr
    simp [hr]
  obtain ⟨h3, h4⟩ := split_at_first ',' _ _ _ _ h2 (hip p hpi) (hip q hqi)
  have hname : p.name.data = q.name.data := List.append_cancel_right h1
  have hipd : p.ip.data = q.ip.data := List.append_cancel_left h3
  have huser : p.user.data = q.user.data :=
    List.append_cancel_right (List.append_cancel_left h4)
  exact ⟨String.ext hname, String.ext hipd, String.ext huser⟩

/-- A concrete instance of the amended C10. -/
theorem label_injective_of_clean_witness :
    '(' ∉ ("web" : String).data ∧ ',' ∉ ("10.0.0.1" : String).data
      ∧ label { name := "web", ip := "10.0.0.1", user := "root" } =
          label { name := "web", ip := "10.0.0.1", user := "root" }
      ∧ ("web" : String) = "web" ∧ ("10.0.0.1" : String) = "10.0.0.1"
      ∧ ("root" : String) = "root" := by
  have hn : '(' ∉ ("web" : String).data := by decide
  have hi : ',' ∉ ("10.0.0.1" : String).data := by decide
  exact ⟨hn, hi, rfl,
    label_injective_of_clean { name := "web", ip := "10.0.0.1", user := "root" }
      { name := "web", ip := "10.0.0.1", user := "root" } hn hn hi hi rfl⟩

/-! ## Distinct labels -/

/-- Membership in the renderings of a list with one element replaced. -/
theorem mem_map_set_iff {α β : Type} (f : α → β) (l : List α) (i : Nat) (x : α) (b : β)
    (hi : i < l.length) :
    b ∈ (l.set i x).map f ↔ b = f x ∨ b ∈ (l.eraseIdx i).map f := by
  induction l generalizing i with
  | nil => simp at hi
  | cons a l ih =>
    cases i with
    | zero => simp
    | succ i =>
      have hi1 : i < l.length := by simpa using hi
      simp only [List.set_cons_succ, List.map_cons, List.mem_cons, List.eraseIdx_cons_succ,
        ih i hi1]
      constructor
      · rintro (h | h | h)
        · exact Or.inr (Or.inl h)
        · exact Or.inl h
        · exact Or.inr (Or.inr h)
      · rintro (h | h | h)
        · exact Or.inr (Or.inl h)
        · exact Or.inl h
        · exact Or.inr (Or.inr h)

/-- Replacing one element of a list with distinct renderings keeps them
distinct exactly when the new rendering is not one of the others. -/
theorem nodup_map_set_iff {α β : Type} (f : α → β) (l : List α) (i : Nat) (x : α)
    (hi : i < l.length) (h : (l.map f).Nodup) :
    ((l.set i x).map f).Nodup ↔ f x ∉ (l.eraseIdx i).map f := by
  induction l generalizing i with
  | nil => simp at hi
  | cons a l ih =>
    rw [List.map_cons, List.nodup_cons] at h
    cases i with
    | zero =>
      simp only [List.set_cons_zero, List.map_cons, List.nodup_cons, List.eraseIdx_cons_zero]
      exact ⟨fun hh => hh.1, fun hh => ⟨hh, h.2⟩⟩
    | succ i =>
      have hi1 : i < l.length := by simpa using hi
      have hsub : ∀ b, b ∈ (l.eraseIdx i).map f → b ∈ l.map f := fun b hb =>
        ((List.eraseIdx_sublist l i).map f).subset hb
      simp only [List.set_cons_succ, List.map_cons, List.nodup_cons, List.eraseIdx_cons_succ,
        List.mem_cons, ih i hi1 h.2, mem_map_set_iff f l i x (f a) hi1]
      constructor
      · rintro ⟨h1, h2⟩ (h3 | h3)
        · exact h1 (Or.inl h3.symm)
        · exact h2 h3
      · intro h1
        refine ⟨?_, fun h3 => h1 (Or.inr h3)⟩
        rintro (h3 | h3)
        · exact h1 (Or.inl h3.symm)
        · exact h.1 (hsub _ h3)

/-- The claim of C3 as stated fails: starting from a list with distinct
labels, adding a profile equal to an existing one with answer `Save` gives a
list in which two profiles have the same label. -/
theorem labels_not_kept_distinct_by_add :
    (defaultSSHRemotes.map label).Nodup
      ∧ ¬ ((addNewSSHConnection Chalk.plain { sshRemotes := defaultSSHRemotes, file := none }
            (.resolved { name := "Template Server 1", ip := "192.168.1.100",
                         user := "template_user", action := "Save" })
            (.resolved false) .ok).1.sshRemotes.map label).Nodup := by
  constructor
  · decide
  · decide

/-- C3, amended: when the labels of the list are pairwise distinct, they are
pairwise distinct after every run of the remove flow; after an add with answer
`Save` they are distinct exactly when the label of the entered profile is not
already in the list; after an edit with answer `Save` they are distinct exactly
when the label of the entered values is not the label of a profile at another
index. -/
theorem labels_distinct_preserved (ch : Chalk) (w : World)
    (h : (w.sshRemotes.map label).Nodup) :
    (∀ answers write,
        ((removeSSHConnection ch w answers write).1.sshRemotes.map label).Nodup)
      ∧ (∀ (name ip user : String) (copyKeyAnswer : Outcome Bool) (write : WriteOutcome),
          ((addNewSSHConnection ch w
              (.resolved { name := name, ip := ip, user := user, action := "Save" })
              copyKeyAnswer write).1.sshRemotes.map label).Nodup ↔
            label { name := name, ip := ip, user := user } ∉ w.sshRemotes.map label)
      ∧ (∀ (selected name ip user : String) (write : WriteOutcome),
          (∃ p ∈ w.sshRemotes, label p = selected) →
          ∃ (i : Nat) (p : Profile), w.sshRemotes[i]? = some p ∧ label p = selected ∧
            (((editSSHConnection ch w (.resolved selected)
                (.resolved { name := name, ip := ip, user := user, action := "Save" })
                write).1.sshRemotes.map label).Nodup ↔
              label { name := name, ip := ip, user := user } ∉
                (w.sshRemotes.eraseIdx i).map label)) := by
  refine ⟨?_, ?_, ?_⟩
  · intro answers write
    cases answers with
    | rejected message => simpa [removeSSHConnection] using h
    | resolved selected =>
      by_cases hc : selected = "Cancel"
      · simpa [removeSSHConnection, hc] using h
      · cases hf : w.sshRemotes.findIdx? (fun r => decide (label r = selected)) with
        | none => simpa [removeSSHConnection, hc, hf] using h
        | some i =>
          have hs : ((w.sshRemotes.eraseIdx i).map label).Nodup :=
            List.Nodup.sublist ((List.eraseIdx_sublist w.sshRemotes i).map label) h
          rw [removeSSHConnection_found ch w selected write i hc hf]
          cases write <;> exact hs
  · intro name ip user copyKeyAnswer write
    have e : (addNewSSHConnection ch w
        (.resolved { name := name, ip := ip, user := user, action := "Save" })
        copyKeyAnswer write).1.sshRemotes =
        w.sshRemotes ++ [{ name := name, ip := ip, user := user }] := by
      cases write <;> simp [addNewSSHConnection, World.save]
    rw [e, List.map_append, List.nodup_append]
    simp only [List.map_cons, List.map_nil, List.nodup_cons, List.not_mem_nil,
      not_false_eq_true, List.nodup_nil, and_self, true_and, List.disjoint_singleton]
    exact ⟨fun hh => hh.2, fun hh => ⟨h, hh⟩⟩
  · intro selected name ip user write hex
    obtain ⟨i, p, _, h2, h3, h4, h5, _⟩ := first_match w.sshRemotes selected hex
    have hne : selected ≠ "Cancel" := by
      rw [← h5]
      exact label_ne_cancel p
    have hlt : i < w.sshRemotes.length := lt_length_of_getElem? _ _ _ h4
    refine ⟨i, p, h4, h5, ?_⟩
    rw [editSSHConnection_save_remotes ch w selected _ write i p hne rfl h2 h3]
    exact nodup_map_set_iff label w.sshRemotes i _ hlt h

/-- A concrete run of the amended C3 on a list of two profiles with distinct
labels: removing the first keeps the labels distinct, adding a third profile
with a new label keeps them distinct, adding a copy of the first does not, and
editing the first into a copy of the second does not. -/
theorem labels_distinct_preserved_witness :
    ([Profile.mk "a" "1" "u", Profile.mk "b" "2" "v"].map label).Nodup
      ∧ ((removeSSHConnection Chalk.plain
            { sshRemotes := [Profile.mk "a" "1" "u", Profile.mk "b" "2" "v"], file := none }
            (.resolved "a (IP: 1, User: u)") .ok).1.sshRemotes.map label).Nodup
      ∧ ((addNewSSHConnection Chalk.plain
            { sshRemotes := [Profile.mk "a" "1" "u", Profile.mk "b" "2" "v"], file := none }
            (.resolved { name := "c", ip := "3", user := "w", action := "Save" })
            (.resolved false) .ok).1.sshRemotes.map label).Nodup
      ∧ ¬ ((addNewSSHConnection Chalk.plain
            { sshRemotes := [Profile.mk "a" "1" "u", Profile.mk "b" "2" "v"], file := none }
            (.resolved { name := "a", ip := "1", user := "u", action := "Save" })
            (.resolved false) .ok).1.sshRemotes.map label).Nodup
      ∧ ¬ ((editSSHConnection Chalk.plain
            { sshRemotes := [Profile.mk "a" "1" "u", Profile.mk "b" "2" "v"], file := none }
            (.resolved "a (IP: 1, User: u)")
            (.resolved { name := "b", ip := "2", user := "v", action := "Save" })
            .ok).1.sshRemotes.map label).Nodup := by
  have h : ([Profile.mk "a" "1" "u", Profile.mk "b" "2" "v"].map label).Nodup := by decide
  have hex : ∃ p ∈ [Profile.mk "a" "1" "u", Profile.mk "b" "2" "v"],
      label p = "a (IP: 1, User: u)" := ⟨_, List.mem_cons_self _ _, by decide⟩
  obtain ⟨hrem, hadd, hedit⟩ := labels_distinct_preserved Chalk.plain
    { sshRemotes := [Profile.mk "a" "1" "u", Profile.mk "b" "2" "v"], file := none } h
  refine ⟨h, hrem _ _, (hadd "c" "3" "w" _ _).mpr (by decide), ?_, ?_⟩
  · intro hn
    exact absurd ((hadd "a" "1" "u" _ _).mp hn) (by decide)
  · intro hn
    obtain ⟨i, p, hi, hl, hiff⟩ := hedit "a (IP: 1, User: u)" "b" "2" "v" .ok hex
    have hi0 : i = 0 := by
      match i, hi with
      | 0, _ => rfl
      | 1, hi =>
        simp at hi
        subst hi
        exact absurd hl (by decide)
      | n + 2, hi => simp at hi
    subst hi0
    exact absurd (hiff.mp hn) (by decide)
/-! ## Returning control to the menu -/

/-- A string starts with its own left part. -/
theorem startsWith_append (a b : String) : startsWith (a ++ b) a = true := by
  simp [startsWith, String.data_append, List.isPrefixOf_iff_prefix]

/-- The paths of the menu flows that do return control: every answer of the
main menu, every offered choice of the manage menu, every path of the remove
and connect flows, the add flow unless its key-copy prompt is rejected (a
failed write included), the edit flow on `Cancel` and after its second prompt,
and the `close` handlers of both launchers. -/
theorem flows_return_control (ch : Chalk) (w : World) :
    (∀ a, returnsControl (mainMenu ch (.resolved a)) = true)
      ∧ (∀ a ∈ (manageQuestion ch).choices,
          returnsControl (manageConnectionsMenu ch (.resolved a)) = true)
      ∧ (∀ m, returnsControl (manageConnectionsMenu ch (.rejected m)) = true)
      ∧ (∀ answers write, returnsControl (removeSSHConnection ch w answers write).2 = true)
      ∧ (∀ answers, returnsControl (selectSSHConnectionToConnect ch w answers) = true)
      ∧ (∀ m ck write,
          returnsControl (addNewSSHConnection ch w (.rejected m) ck write).2 = true)
      ∧ (∀ d b write,
          returnsControl (addNewSSHConnection ch w (.resolved d) (.resolved b) write).2 = true)
      ∧ (∀ d ck m left,
          returnsControl (addNewSSHConnection ch w (.resolved d) ck (.throws m left)).2 = true)
      ∧ (∀ d ck write, d.action ≠ "Save" →
          returnsControl (addNewSSHConnection ch w (.resolved d) ck write).2 = true)
      ∧ (∀ d write,
          returnsControl (editSSHConnection ch w (.resolved "Cancel") d write).2 = true)
      ∧ (∀ code, returnsControl (connectOnClose ch code) = true)
      ∧ (∀ code, returnsControl (copyOnClose ch code) = true) := by
  refine ⟨?_, ?_, ?_, ?_, ?_, ?_, ?_, ?_, ?_, ?_, ?_, ?_⟩
  · intro a
    simp only [mainMenu, returnsControl]
    split_ifs <;> simp
  · intro a ha
    simp only [manageQuestion, List.mem_cons, List.mem_singleton, List.not_mem_nil,
      or_false] at ha
    rcases ha with rfl | rfl | rfl
    · simp only [manageConnectionsMenu, returnsControl, startsWith_append]
      split_ifs <;> simp
    · simp only [manageConnectionsMenu, returnsControl, startsWith_append]
      split_ifs <;> simp
    · simp [manageConnectionsMenu, returnsControl]
  · intro m
    simp [manageConnectionsMenu, returnsControl]
  · intro answers write
    cases answers with
    | rejected m => simp [removeSSHConnection, returnsControl]
    | resolved s =>
      simp only [removeSSHConnection]
      split_ifs
      · simp [returnsControl]
      · cases w.sshRemotes.findIdx? (fun r => decide (label r = s)) <;>
          cases write <;> simp [returnsControl]
  · intro answers
    cases answers with
    | rejected m => simp [selectSSHConnectionToConnect, returnsControl]
    | resolved s =>
      simp only [selectSSHConnectionToConnect]
      split_ifs
      · simp [returnsControl]
      · cases w.sshRemotes.find? (fun r => decide (connectLabel ch r = s)) <;>
          simp [returnsControl]
  · intro m ck write
    simp [addNewSSHConnection, returnsControl]
  · intro d b write
    simp only [addNewSSHConnection]
    cases write <;> split_ifs <;> simp [returnsControl]
  · intro d ck m left
    simp only [addNewSSHConnection]
    split_ifs <;> simp [returnsControl]
  · intro d ck write hd
    simp [addNewSSHConnection, hd, returnsControl]
  · intro d write
    simp [editSSHConnection, returnsControl]
  · intro code
    simp [connectOnClose, returnsControl]
  · intro code
    simp [copyOnClose, returnsControl]

/-- C2 fails on the code: when the first prompt of `editSSHConnection` is
rejected, or its selection matches no profile, the flow performs nothing after
the prompt, so it neither calls `mainMenu` nor exits, while the sibling
`removeSSHConnection` returns to the main menu on both paths; likewise the
`catch` of `mainMenu` only logs and clears the screen, and a rejected key-copy
prompt of the add flow has no handler. -/
theorem editSSHConnection_rejected_does_not_return (ch : Chalk) (w : World)
    (message : String) (d : Outcome Details) (name ip user : String) (write : WriteOutcome) :
    (editSSHConnection ch w (.rejected message) d write).2 =
        [.prompt [editSelectQuestion ch w.sshRemotes]]
      ∧ returnsControl (editSSHConnection ch w (.rejected message) d write).2 = false
      ∧ returnsControl (editSSHConnection ch { sshRemotes := [], file := w.file }
          (.resolved "no such server") d write).2 = false
      ∧ returnsControl (removeSSHConnection ch w (.rejected message) write).2 = true
      ∧ returnsControl (removeSSHConnection ch { sshRemotes := [], file := w.file }
          (.resolved "no such server") write).2 = true
      ∧ returnsControl (mainMenu ch (.rejected message)) = false
      ∧ returnsControl (addNewSSHConnection ch w
          (.resolved { name := name, ip := ip, user := user, action := "Save" })
          (.rejected message) .ok).2 = false := by
  have hne : ("no such server" : String) ≠ "Cancel" := by decide
  refine ⟨rfl, rfl, ?_, rfl, ?_, rfl, ?_⟩
  · simp [editSSHConnection, hne, returnsControl]
  · simp [removeSSHConnection, hne, returnsControl]
  · simp [addNewSSHConnection, returnsControl]

end SshCli
